import Mathlib

/-!
Shallow embedding of ghostunnel's `tls.go` (a hot-reloadable TLS server
identity): the reloadable `certificate` store with its atomically published
slot, the trust-bundle loader `certBundle`, and the policy builder
`buildConfig`.

Bytes are modelled as `List Nat`.  The cryptographic container formats
(PKCS#12, PEM, X.509 DER) are modelled by small concrete codecs that keep the
observable behaviour the source relies on: decryption fails on a wrong
passphrase or malformed container, PEM decoding extracts a list of typed
blocks, DER parsing exposes the public key of a certificate, and
`X509KeyPair` rejects a private key that does not match the leaf
certificate's public key (the documented behaviour of Go's
`crypto/tls.X509KeyPair`, which `reload` calls at tls.go:69).

The `unsafe.Pointer` slot `cached` (tls.go:34) is written only at tls.go:79
by a single `atomic.StorePointer` of a fully formed value, and read only at
tls.go:49 by a single `atomic.LoadPointer`; it is modelled as an
`Option TLSCertificate` field updated in one step.
-/

namespace Ghostunnel

/-- Raw bytes, as an explicit list. -/
abbrev Bytes := List Nat

/-- Errors are their message strings (Go `error`). -/
abbrev Err := String

/-- The file system the process reads from: maps a path to the file's bytes,
or `none` when the file cannot be read. -/
abbrev FS := String → Option Bytes

/-- Model of `ioutil.ReadFile`: returns the file's contents, or an I/O error
when the file cannot be read. -/
def ReadFile (fs : FS) (path : String) : Except Err Bytes :=
  match fs path with
  | some b => Except.ok b
  | none => Except.error "no such file or directory"

/-- A decoded PEM block: a type tag (`CERTIFICATE`, `PRIVATE KEY`, ...)
and its DER payload. -/
structure PEMBlock where
  btype : Nat
  payload : Bytes
deriving DecidableEq, Repr

/-- PEM type tag standing for "PRIVATE KEY". -/
def privateKeyBlockType : Nat := 0

/-- PEM type tag standing for "CERTIFICATE". -/
def certificateBlockType : Nat := 1

/-- Model of `pem.EncodeToMemory` (tls.go:66): serialize one block as its
type tag, payload length, then the payload. -/
def EncodeToMemory (b : PEMBlock) : Bytes :=
  b.btype :: b.payload.length :: b.payload

/-- Model of the `pem.Decode` loop used by `tls.X509KeyPair` and
`x509.CertPool.AppendCertsFromPEM`: greedily decode consecutive blocks,
stopping (and discarding the tail) at the first malformed remainder, as
`pem.Decode` returns no further block on trailing garbage. -/
def decodeBlocksAux : Nat → Bytes → List PEMBlock
  | 0, _ => []
  | _ + 1, [] => []
  | _ + 1, [_] => []
  | fuel + 1, t :: n :: rest =>
    if n ≤ rest.length then
      ⟨t, rest.take n⟩ :: decodeBlocksAux fuel (rest.drop n)
    else []

/-- Lenient decoding of consecutive blocks (the input's length bounds the
number of blocks, so it serves as recursion fuel). -/
def decodeBlocks (b : Bytes) : List PEMBlock :=
  decodeBlocksAux b.length b

/-- Strict block decoding used inside the PKCS#12 container model: the whole
byte string must be a valid sequence of blocks. -/
def decodeBlocksStrictAux : Nat → Bytes → Option (List PEMBlock)
  | 0, [] => some []
  | 0, _ :: _ => none
  | _ + 1, [] => some []
  | _ + 1, [_] => none
  | fuel + 1, t :: n :: rest =>
    if n ≤ rest.length then
      match decodeBlocksStrictAux fuel (rest.drop n) with
      | some bs => some (⟨t, rest.take n⟩ :: bs)
      | none => none
    else none

/-- Strict decoding of a whole byte string into blocks. -/
def decodeBlocksStrict (b : Bytes) : Option (List PEMBlock) :=
  decodeBlocksStrictAux b.length b

/-- A numeric code of a passphrase, standing for the key-derivation input of
the PKCS#12 encryption. -/
def strCode (s : String) : Nat :=
  s.data.foldl (fun a c => a * 256 + c.toNat) 0

/-- Model of `pkcs12.ToPEM` (tls.go:59): decrypt the container with the
passphrase and return its PEM blocks.  A container is modelled as the code of
the passphrase it was encrypted under followed by its serialized blocks; the
call fails when the container is malformed or the passphrase is wrong, as
documented for `golang.org/x/crypto/pkcs12`. -/
def ToPEM (keystoreBytes : Bytes) (password : String) : Except Err (List PEMBlock) :=
  match keystoreBytes with
  | [] => Except.error "pkcs12: error reading P12 data"
  | tag :: rest =>
    if tag = strCode password then
      match decodeBlocksStrict rest with
      | some blocks => Except.ok blocks
      | none => Except.error "pkcs12: error reading P12 data"
    else
      Except.error "pkcs12: decryption password incorrect"

/-- A parsed X.509 certificate (`x509.Certificate`): the public key it
certifies plus its remaining metadata (subject, issuer, ...). -/
structure X509Certificate where
  pub : Nat
  meta : Bytes
deriving DecidableEq, Repr

/-- Model of `x509.ParseCertificate` (tls.go:74): a certificate's DER is the
tag 1 followed by its public key and metadata; anything else is malformed. -/
def ParseCertificate (der : Bytes) : Option X509Certificate :=
  match der with
  | 1 :: pub :: meta => some ⟨pub, meta⟩
  | _ => none

/-- A parsed private key: the public key it corresponds to. -/
structure PrivateKey where
  pub : Nat
deriving DecidableEq, Repr

/-- Model of private-key parsing inside `tls.X509KeyPair`: a key's DER is the
tag 2 followed by the public key it corresponds to. -/
def parsePrivateKey (der : Bytes) : Option PrivateKey :=
  match der with
  | [2, pub] => some ⟨pub⟩
  | _ => none

/-- Model of `tls.Certificate`: the DER chain (leaf first), the private key,
and the optional parsed leaf (left unset by `X509KeyPair`, filled in by
`reload` at tls.go:74). -/
structure TLSCertificate where
  certificate : List Bytes
  privateKey : PrivateKey
  leaf : Option X509Certificate
deriving DecidableEq, Repr

/-- Model of `tls.X509KeyPair` (tls.go:69): collect the CERTIFICATE blocks of
the first argument and the private-key block of the second, parse the key and
the leaf certificate, and fail unless the private key matches the leaf's
public key (the documented mismatch check of `crypto/tls`).  The `Leaf`
field is left unset, as in the Go standard library. -/
def X509KeyPair (certPEMBlock keyPEMBlock : Bytes) : Except Err TLSCertificate :=
  match (decodeBlocks certPEMBlock).filterMap
      (fun b => if b.btype = certificateBlockType then some b.payload else none) with
  | [] => Except.error "tls: failed to find any PEM data in certificate input"
  | leafDER :: restDERs =>
    match (decodeBlocks keyPEMBlock).find? (fun b => b.btype = privateKeyBlockType) with
    | none => Except.error "tls: failed to find any PEM data in key input"
    | some keyBlock =>
      match parsePrivateKey keyBlock.payload with
      | none => Except.error "tls: failed to parse private key"
      | some priv =>
        match ParseCertificate leafDER with
        | none => Except.error "x509: malformed certificate"
        | some x509Cert =>
          if priv.pub = x509Cert.pub then
            Except.ok ⟨leafDER :: restDERs, priv, none⟩
          else
            Except.error "tls: private key does not match public key"

/-- The reloadable certificate store (tls.go:32): the container path, its
passphrase, and the atomically published slot `cached` (an `unsafe.Pointer`
in the source, `none` before the first successful load). -/
structure certificate where
  keystorePath : String
  keystorePass : String
  cached : Option TLSCertificate
deriving DecidableEq, Repr

/-- The `tls.ClientHelloInfo` handed to `getCertificate`; its contents are
never inspected by the source. -/
structure ClientHelloInfo where
  serverName : String
deriving DecidableEq, Repr

/-- The decode pipeline of `reload` (tls.go:54-77): read the container file,
decrypt it with the passphrase, concatenate the re-encoded PEM blocks, build
the key pair, and parse the leaf from `Certificate[0]`.  Every failure
returns before the slot is touched; the successful value is what tls.go:79
publishes. -/
def reloadDecode (fs : FS) (keystorePath keystorePass : String) :
    Except Err TLSCertificate :=
  match ReadFile fs keystorePath with
  | Except.error e => Except.error e
  | Except.ok keystoreBytes =>
    match ToPEM keystoreBytes keystorePass with
    | Except.error e => Except.error e
    | Except.ok pemBlocks =>
      let pemBytes := (pemBlocks.map EncodeToMemory).flatten
      match X509KeyPair pemBytes pemBytes with
      | Except.error e => Except.error e
      | Except.ok certAndKey =>
        match certAndKey.certificate with
        | [] => Except.error "index out of range"
        | leafDER :: _ =>
          match ParseCertificate leafDER with
          | none => Except.error "x509: malformed certificate"
          | some leaf => Except.ok { certAndKey with leaf := some leaf }

/-- Model of `certificate.reload` (tls.go:53-81): run the decode pipeline; on
error return it with the store untouched, on success publish the fully formed
bundle into `cached` in a single step (`atomic.StorePointer`, tls.go:79). -/
def reload (fs : FS) (c : certificate) : certificate × Option Err :=
  match reloadDecode fs c.keystorePath c.keystorePass with
  | Except.error e => (c, some e)
  | Except.ok certAndKey => ({ c with cached := some certAndKey }, none)

/-- Model of `buildCertificate` (tls.go:38-45): construct the store with an
unset slot (tls.go:39), run the initial `reload`, and fail construction if it
fails. -/
def buildCertificate (fs : FS) (keystorePath keystorePass : String) :
    Except Err certificate :=
  match reload fs ⟨keystorePath, keystorePass, none⟩ with
  | (_, some e) => Except.error e
  | (c, none) => Except.ok c

/-- Model of `certificate.getCertificate` (tls.go:48-50): a single atomic read
of the slot, returned with a nil error. -/
def getCertificate (c : certificate) (_clientHello : ClientHelloInfo) :
    Option TLSCertificate × Option Err :=
  (c.cached, none)

/-- A trust pool (`x509.CertPool`), as the list of certificates added to it. -/
abbrev CertPool := List X509Certificate

/-- Model of `x509.NewCertPool` (tls.go:93): the empty pool. -/
def NewCertPool : CertPool := []

/-- The certificates extracted from PEM bytes by
`x509.CertPool.AppendCertsFromPEM`: each CERTIFICATE block whose DER parses,
in order; unparseable or non-certificate blocks are skipped. -/
def extractedCerts (pemCerts : Bytes) : List X509Certificate :=
  (decodeBlocks pemCerts).filterMap
    (fun b => if b.btype = certificateBlockType then ParseCertificate b.payload else none)

/-- Model of `x509.CertPool.AppendCertsFromPEM` (tls.go:94): append every
extracted certificate and report whether at least one was appended. -/
def AppendCertsFromPEM (pool : CertPool) (pemCerts : Bytes) : CertPool × Bool :=
  let certs := extractedCerts pemCerts
  (pool ++ certs, !certs.isEmpty)

/-- Model of `x509.SystemCertPool` (tls.go:85): the platform's default trust
store, or an error when the platform exposes none; the platform state is an
explicit parameter. -/
def SystemCertPool (sys : Option CertPool) : Except Err CertPool :=
  match sys with
  | some pool => Except.ok pool
  | none => Except.error "crypto/x509: system root pool is not available"

/-- Model of `certBundle` (tls.go:83-99): the platform default pool for the
empty path; otherwise read the file and require at least one PEM certificate,
failing with the parse error otherwise. -/
def certBundle (fs : FS) (sys : Option CertPool) (caBundlePath : String) :
    Except Err CertPool :=
  if caBundlePath = "" then
    SystemCertPool sys
  else
    match ReadFile fs caBundlePath with
    | Except.error e => Except.error e
    | Except.ok caBundleBytes =>
      match AppendCertsFromPEM NewCertPool caBundleBytes with
      | (bundle, true) => Except.ok bundle
      | (_, false) => Except.error "unable to parse ca-bundle"

/-- Go's `tls.RequireAndVerifyClientCert` constant. -/
def RequireAndVerifyClientCert : Nat := 4

/-- Go's `tls.VersionTLS12` constant. -/
def VersionTLS12 : Nat := 0x0303

/-- Cipher-suite identifier `TLS_ECDHE_RSA_WITH_AES_128_GCM_SHA256`. -/
def TLS_ECDHE_RSA_WITH_AES_128_GCM_SHA256 : Nat := 0xc02f

/-- Cipher-suite identifier `TLS_ECDHE_ECDSA_WITH_AES_128_GCM_SHA256`. -/
def TLS_ECDHE_ECDSA_WITH_AES_128_GCM_SHA256 : Nat := 0xc02b

/-- Cipher-suite identifier `TLS_ECDHE_RSA_WITH_AES_256_GCM_SHA384`. -/
def TLS_ECDHE_RSA_WITH_AES_256_GCM_SHA384 : Nat := 0xc030

/-- Cipher-suite identifier `TLS_ECDHE_ECDSA_WITH_AES_256_GCM_SHA384`. -/
def TLS_ECDHE_ECDSA_WITH_AES_256_GCM_SHA384 : Nat := 0xc02c

/-- The fields of the `tls.Config` assembled by `buildConfig`. -/
structure Config where
  rootCAs : CertPool
  clientCAs : CertPool
  preferServerCipherSuites : Bool
  clientAuth : Nat
  minVersion : Nat
  cipherSuites : List Nat
deriving DecidableEq, Repr

/-- Model of `buildConfig` (tls.go:102-124): load the trust bundle and bind
it, together with the fixed hardening choices, into a `tls.Config`. -/
def buildConfig (fs : FS) (sys : Option CertPool) (caBundlePath : String) :
    Except Err Config :=
  match certBundle fs sys caBundlePath with
  | Except.error e => Except.error e
  | Except.ok caBundle =>
    Except.ok
      { rootCAs := caBundle
        clientCAs := caBundle
        preferServerCipherSuites := true
        clientAuth := RequireAndVerifyClientCert
        minVersion := VersionTLS12
        cipherSuites :=
          [TLS_ECDHE_RSA_WITH_AES_128_GCM_SHA256,
           TLS_ECDHE_ECDSA_WITH_AES_128_GCM_SHA256,
           TLS_ECDHE_RSA_WITH_AES_256_GCM_SHA384,
           TLS_ECDHE_ECDSA_WITH_AES_256_GCM_SHA384] }

/-!
Interleaving semantics for the concurrency claim.  The slot `cached` is
written only by the single `atomic.StorePointer` at tls.go:79, always with a
pointer to a fully formed bundle, and read only by the single
`atomic.LoadPointer` at tls.go:49; a concurrent execution is therefore
modelled as a sequence of events, each reload contributing its one publish
step (or nothing, on failure) and each `getCertificate` its one read. -/

/-- One atomic event on the `cached` slot: the publish step of a `reload`
run against some file-system snapshot, or the read step of a
`getCertificate` call. -/
inductive Event where
  | reloadEv : FS → Event
  | getEv : Event

/-- The slot contents after one event: a reload whose decode pipeline failed
leaves the slot untouched, a successful one replaces it with the new bundle
in a single step; a read changes nothing. -/
def slotAfter (keystorePath keystorePass : String)
    (slot : Option TLSCertificate) : Event → Option TLSCertificate
  | Event.getEv => slot
  | Event.reloadEv fs =>
    match reloadDecode fs keystorePath keystorePass with
    | Except.error _ => slot
    | Except.ok b => some b

/-- The values returned by the `getCertificate` reads of an event sequence,
starting from a given slot value. -/
def observations (keystorePath keystorePass : String) :
    List Event → Option TLSCertificate → List (Option TLSCertificate)
  | [], _ => []
  | Event.getEv :: evs, slot =>
    slot :: observations keystorePath keystorePass evs slot
  | Event.reloadEv fs :: evs, slot =>
    observations keystorePath keystorePass evs
      (slotAfter keystorePath keystorePass slot (Event.reloadEv fs))

/-- A bundle whose fields all belong to one generation: the chain is
non-empty, the parsed leaf is exactly the parse of the chain's first
element, and the private key matches the leaf's public key. -/
def wellFormedBundle (b : TLSCertificate) : Prop :=
  ∃ leafDER rest l, b.certificate = leafDER :: rest ∧
    ParseCertificate leafDER = some l ∧ b.leaf = some l ∧
    b.privateKey.pub = l.pub

/-!
Concrete fixtures, used by the witnesses below: a keystore holding one
certificate (public key 7) and its matching private key, encrypted under the
passphrase "secret", plus a PEM trust-bundle file and a platform pool.
-/

/-- The bundle decoded from the fixture keystore. -/
def bundle0 : TLSCertificate :=
  ⟨[[1, 7, 42]], ⟨7⟩, some ⟨7, [42]⟩⟩

/-- The PEM blocks stored in the fixture keystore: the certificate with
public key 7 and the matching private key. -/
def ksBlocks : List PEMBlock :=
  [⟨certificateBlockType, [1, 7, 42]⟩, ⟨privateKeyBlockType, [2, 7]⟩]

/-- The fixture keystore file: the blocks encrypted under "secret". -/
def ksBytes : Bytes :=
  strCode "secret" :: (ksBlocks.map EncodeToMemory).flatten

/-- A file system holding the fixture keystore. -/
def fs0 : FS := fun p => if p = "keystore.p12" then some ksBytes else none

/-- A file system on which every read fails. -/
def fsEmpty : FS := fun _ => none

/-- A file system holding an empty trust-bundle file. -/
def fsCA : FS := fun p => if p = "empty.pem" then some [] else none

/-- A concrete client hello. -/
def hello0 : ClientHelloInfo := ⟨"server.example.com"⟩

/-- A store on which no load ever succeeded. -/
def storeUnset : certificate := ⟨"keystore.p12", "secret", none⟩

/-- A store with a previously published bundle. -/
def storeLoaded : certificate := ⟨"keystore.p12", "secret", some bundle0⟩

/-- A concrete platform trust pool. -/
def sysPool : CertPool := [⟨3, [1]⟩]

/-- The config assembled from the platform pool and the empty bundle path. -/
def cfg0 : Config :=
  ⟨sysPool, sysPool, true, RequireAndVerifyClientCert, VersionTLS12,
    [TLS_ECDHE_RSA_WITH_AES_128_GCM_SHA256,
     TLS_ECDHE_ECDSA_WITH_AES_128_GCM_SHA256,
     TLS_ECDHE_RSA_WITH_AES_256_GCM_SHA384,
     TLS_ECDHE_ECDSA_WITH_AES_256_GCM_SHA384]⟩

/-- A concrete event sequence: one reload against the fixture file system,
then one read. -/
def evs0 : List Event := [Event.reloadEv fs0, Event.getEv]

/-- A successful `X509KeyPair` yields a non-empty chain whose leaf parses and
matches the private key, with the `Leaf` field still unset. -/
theorem X509KeyPair_ok {a b : Bytes} {t : TLSCertificate}
    (h : X509KeyPair a b = Except.ok t) :
    ∃ leafDER rest l, t.certificate = leafDER :: rest ∧
      ParseCertificate leafDER = some l ∧ t.privateKey.pub = l.pub ∧
      t.leaf = none := by
  unfold X509KeyPair at h
  split at h
  · exact Except.noConfusion h
  · rename_i leafDER restDERs heq
    split at h
    · exact Except.noConfusion h
    · rename_i keyBlock hfind
      split at h
      · exact Except.noConfusion h
      · rename_i priv hpriv
        split at h
        · exact Except.noConfusion h
        · rename_i x509Cert hx
          split at h
          · rename_i hpub
            injection h with h
            subst h
            exact ⟨leafDER, restDERs, x509Cert, rfl, hx, hpub, rfl⟩
          · exact Except.noConfusion h

/-- Every bundle produced by the decode pipeline of `reload` is well formed:
its leaf is the parse of `Certificate[0]` and its key matches that leaf. -/
theorem reloadDecode_ok_wellFormed {fs : FS} {keystorePath keystorePass : String}
    {b : TLSCertificate}
    (h : reloadDecode fs keystorePath keystorePass = Except.ok b) :
    wellFormedBundle b := by
  unfold reloadDecode at h
  split at h
  · exact Except.noConfusion h
  · rename_i keystoreBytes hread
    split at h
    · exact Except.noConfusion h
    · rename_i pemBlocks hpem
      simp only [] at h
      split at h
      · exact Except.noConfusion h
      · rename_i certAndKey hkp
        split at h
        · exact Except.noConfusion h
        · rename_i leafDER rest hchain
          split at h
          · exact Except.noConfusion h
          · rename_i leaf hleaf
            injection h with h
            subst h
            obtain ⟨d, r, l, hcert, hparse, hpub, -⟩ := X509KeyPair_ok hkp
            rw [hchain] at hcert
            injection hcert with hd hr
            subst hd hr
            rw [hleaf] at hparse
            injection hparse with hl
            subst hl
            exact ⟨leafDER, rest, leaf, hchain, hleaf, rfl, hpub⟩

/-- On a failed decode pipeline, `reload` returns the error and the store
value unchanged; on success it returns no error and the store with the new
bundle in its slot. -/
theorem reload_cases (fs : FS) (c : certificate) :
    (∀ e, reloadDecode fs c.keystorePath c.keystorePass = Except.error e →
      reload fs c = (c, some e)) ∧
    (∀ b, reloadDecode fs c.keystorePath c.keystorePass = Except.ok b →
      reload fs c = ({ c with cached := some b }, none)) := by
  constructor
  · intro e he
    unfold reload
    rw [he]
  · intro b hb
    unfold reload
    rw [hb]

/-- C1: for every store state, if `reload` fails at any stage (file read,
container decode, key-pair parse, or leaf parse) it returns that error and
the published current bundle is left completely unchanged, so a subsequent
`getCertificate` returns exactly the bundle active before the failed call. -/
theorem reload_failure_preserves_current (fs : FS) (c : certificate) (e : Err)
    (clientHello : ClientHelloInfo) (h : (reload fs c).2 = some e) :
    (reload fs c).1 = c ∧
      getCertificate (reload fs c).1 clientHello = getCertificate c clientHello := by
  cases hd : reloadDecode fs c.keystorePath c.keystorePass with
  | error e' =>
    rw [(reload_cases fs c).1 e' hd]
    exact ⟨rfl, rfl⟩
  | ok b =>
    rw [(reload_cases fs c).2 b hd] at h
    exact absurd h (by simp)

/-- Witness for C1: a failed reload (unreadable file) against a store with a
previously published bundle leaves the store and its served bundle intact. -/
theorem reload_failure_preserves_current_witness :
    (reload fsEmpty storeLoaded).2 = some "no such file or directory" ∧
      ((reload fsEmpty storeLoaded).1 = storeLoaded ∧
        getCertificate (reload fsEmpty storeLoaded).1 hello0 =
          getCertificate storeLoaded hello0) :=
  ⟨rfl, reload_failure_preserves_current fsEmpty storeLoaded
    "no such file or directory" hello0 rfl⟩

/-- C2: in any interleaved execution of reloads and reads, every value a
read returns is drawn from a single published generation — the initial slot
value or the whole well-formed bundle published by one of the reloads, never
a mixture of fields — because the publish step is the store's single write of
a fully formed immutable value. -/
theorem getCertificate_single_generation (keystorePath keystorePass : String)
    (evs : List Event) (init o : Option TLSCertificate)
    (ho : o ∈ observations keystorePath keystorePass evs init) :
    o = init ∨ ∃ fs b, (Event.reloadEv fs) ∈ evs ∧
      reloadDecode fs keystorePath keystorePass = Except.ok b ∧
      wellFormedBundle b ∧ o = some b := by
  induction evs generalizing init with
  | nil => simp [observations] at ho
  | cons ev evs ih =>
    cases ev with
    | getEv =>
      simp only [observations] at ho
      rcases List.mem_cons.mp ho with h | h
      · exact Or.inl h
      · rcases ih init h with h' | ⟨fs, b, hmem, hdec, hwf, hob⟩
        · exact Or.inl h'
        · exact Or.inr ⟨fs, b, List.mem_cons_of_mem _ hmem, hdec, hwf, hob⟩
    | reloadEv fs =>
      simp only [observations] at ho
      rcases ih _ ho with h' | ⟨fs', b, hmem, hdec, hwf, hob⟩
      · cases hd : reloadDecode fs keystorePath keystorePass with
        | error e =>
          simp only [slotAfter, hd] at h'
          exact Or.inl h'
        | ok b =>
          simp only [slotAfter, hd] at h'
          exact Or.inr ⟨fs, b, List.mem_cons_self _ _, hd,
            reloadDecode_ok_wellFormed hd, h'⟩
      · exact Or.inr ⟨fs', b, List.mem_cons_of_mem _ hmem, hdec, hwf, hob⟩

/-- Witness for C2: in the run with one reload followed by one read, the
read observes the bundle that reload published, in full. -/
theorem getCertificate_single_generation_witness :
    some bundle0 ∈ observations "keystore.p12" "secret" evs0 none ∧
      (some bundle0 = none ∨ ∃ fs b, (Event.reloadEv fs) ∈ evs0 ∧
        reloadDecode fs "keystore.p12" "secret" = Except.ok b ∧
        wellFormedBundle b ∧ (some bundle0 : Option TLSCertificate) = some b) := by
  have hobs : observations "keystore.p12" "secret" evs0 none = [some bundle0] := rfl
  have hmem : some bundle0 ∈ observations "keystore.p12" "secret" evs0 none := by
    rw [hobs]
    exact List.mem_singleton.mpr rfl
  exact ⟨hmem,
    getCertificate_single_generation "keystore.p12" "secret" evs0 none (some bundle0) hmem⟩

/-- C3 counterexample: on a concrete never-loaded store, `getCertificate`
returns a nil error together with a nil certificate — it does not return an
error. -/
theorem getCertificate_unset_no_error :
    (getCertificate storeUnset hello0).2 = none ∧
      (getCertificate storeUnset hello0).1 = none ∧ storeUnset.cached = none :=
  ⟨rfl, rfl, rfl⟩

/-- C3 amended: for every store whose slot is unset, `getCertificate` returns
a nil certificate together with a nil error, silently, rather than any
error value. -/
theorem getCertificate_unset_returns_nil (c : certificate)
    (clientHello : ClientHelloInfo) (h : c.cached = none) :
    getCertificate c clientHello = (none, none) := by
  unfold getCertificate
  rw [h]

/-- Witness for the amended C3 at the concrete unset store. -/
theorem getCertificate_unset_returns_nil_witness :
    storeUnset.cached = none ∧ getCertificate storeUnset hello0 = (none, none) :=
  ⟨rfl, getCertificate_unset_returns_nil storeUnset hello0 rfl⟩

/-- C4: whenever `buildConfig` succeeds, the assembled config has client-auth
mode require-and-verify, minimum version TLS 1.2, exactly the four fixed
cipher suites, and server cipher-preference ordering enabled, regardless of
the trust bundle. -/
theorem buildConfig_fixed_policy (fs : FS) (sys : Option CertPool)
    (caBundlePath : String) (cfg : Config)
    (h : buildConfig fs sys caBundlePath = Except.ok cfg) :
    cfg.clientAuth = RequireAndVerifyClientCert ∧
      cfg.minVersion = VersionTLS12 ∧
      cfg.cipherSuites = [TLS_ECDHE_RSA_WITH_AES_128_GCM_SHA256,
        TLS_ECDHE_ECDSA_WITH_AES_128_GCM_SHA256,
        TLS_ECDHE_RSA_WITH_AES_256_GCM_SHA384,
        TLS_ECDHE_ECDSA_WITH_AES_256_GCM_SHA384] ∧
      cfg.preferServerCipherSuites = true := by
  unfold buildConfig at h
  split at h
  · exact Except.noConfusion h
  · injection h with h
    subst h
    exact ⟨rfl, rfl, rfl, rfl⟩

/-- Witness for C4 at a concrete platform pool and the empty bundle path. -/
theorem buildConfig_fixed_policy_witness :
    buildConfig fsEmpty (some sysPool) "" = Except.ok cfg0 ∧
      (cfg0.clientAuth = RequireAndVerifyClientCert ∧
        cfg0.minVersion = VersionTLS12 ∧
        cfg0.cipherSuites = [TLS_ECDHE_RSA_WITH_AES_128_GCM_SHA256,
          TLS_ECDHE_ECDSA_WITH_AES_128_GCM_SHA256,
          TLS_ECDHE_RSA_WITH_AES_256_GCM_SHA384,
          TLS_ECDHE_ECDSA_WITH_AES_256_GCM_SHA384] ∧
        cfg0.preferServerCipherSuites = true) :=
  ⟨rfl, buildConfig_fixed_policy fsEmpty (some sysPool) "" cfg0 rfl⟩

/-- C5: for the empty path, `certBundle` returns the platform default pool
without reading any file (the result does not depend on the file system) and
fails exactly when the platform exposes no default pool; and every config
`buildConfig` assembles uses the same pool as both root and client CAs. -/
theorem certBundle_empty_path_platform_default (fs fs' : FS)
    (sys : Option CertPool) (caBundlePath : String) (cfg : Config)
    (h : buildConfig fs sys caBundlePath = Except.ok cfg) :
    certBundle fs sys "" = certBundle fs' sys "" ∧
      certBundle fs sys "" = SystemCertPool sys ∧
      certBundle fs none "" =
        Except.error "crypto/x509: system root pool is not available" ∧
      cfg.rootCAs = cfg.clientCAs := by
  refine ⟨?_, ?_, ?_, ?_⟩
  · simp [certBundle]
  · simp [certBundle]
  · simp [certBundle, SystemCertPool]
  · unfold buildConfig at h
    split at h
    · exact Except.noConfusion h
    · injection h with h
      subst h
      rfl

/-- Witness for C5 at the concrete platform pool and empty path. -/
theorem certBundle_empty_path_platform_default_witness :
    buildConfig fsEmpty (some sysPool) "" = Except.ok cfg0 ∧
      (certBundle fsEmpty (some sysPool) "" = certBundle fs0 (some sysPool) "" ∧
        certBundle fsEmpty (some sysPool) "" = SystemCertPool (some sysPool) ∧
        certBundle fsEmpty none "" =
          Except.error "crypto/x509: system root pool is not available" ∧
        cfg0.rootCAs = cfg0.clientCAs) :=
  ⟨rfl, certBundle_empty_path_platform_default fsEmpty fs0 (some sysPool) "" cfg0 rfl⟩

/-- C6: for every non-empty path, `certBundle` fails with the file-read error
when the file cannot be read, fails with the parse error (not an empty
bundle) when zero certificates can be extracted, and returns a bundle only
when at least one certificate was extracted. -/
theorem certBundle_nonempty_path_errors (fs : FS) (sys : Option CertPool)
    (caBundlePath : String) (hpath : caBundlePath ≠ "") :
    (fs caBundlePath = none →
      certBundle fs sys caBundlePath = Except.error "no such file or directory") ∧
    (∀ caBundleBytes, fs caBundlePath = some caBundleBytes →
      extractedCerts caBundleBytes = [] →
      certBundle fs sys caBundlePath = Except.error "unable to parse ca-bundle") ∧
    (∀ pool, certBundle fs sys caBundlePath = Except.ok pool →
      pool ≠ [] ∧ ∃ caBundleBytes, fs caBundlePath = some caBundleBytes ∧
        pool = extractedCerts caBundleBytes) := by
  refine ⟨?_, ?_, ?_⟩
  · intro hnone
    simp [certBundle, if_neg hpath, ReadFile, hnone]
  · intro caBundleBytes hsome hext
    simp [certBundle, if_neg hpath, ReadFile, hsome, AppendCertsFromPEM, hext]
  · intro pool hok
    unfold certBundle at hok
    rw [if_neg hpath] at hok
    unfold ReadFile at hok
    cases hfs : fs caBundlePath with
    | none =>
      rw [hfs] at hok
      exact Except.noConfusion hok
    | some caBundleBytes =>
      rw [hfs] at hok
      cases hempty : (extractedCerts caBundleBytes).isEmpty with
      | true =>
        simp [AppendCertsFromPEM, hempty] at hok
      | false =>
        simp only [AppendCertsFromPEM, hempty, Bool.not_false, NewCertPool,
          List.nil_append] at hok
        injection hok with hok
        subst hok
        refine ⟨?_, caBundleBytes, rfl, rfl⟩
        intro hnil
        rw [hnil] at hempty
        simp at hempty

/-- Witness for C6 at a concrete empty trust-bundle file: zero certificates
are extracted and `certBundle` fails with the parse error. -/
theorem certBundle_nonempty_path_errors_witness :
    ("empty.pem" : String) ≠ "" ∧
      ((fsCA "empty.pem" = none →
        certBundle fsCA (some sysPool) "empty.pem" =
          Except.error "no such file or directory") ∧
      (∀ caBundleBytes, fsCA "empty.pem" = some caBundleBytes →
        extractedCerts caBundleBytes = [] →
        certBundle fsCA (some sysPool) "empty.pem" =
          Except.error "unable to parse ca-bundle") ∧
      (∀ pool, certBundle fsCA (some sysPool) "empty.pem" = Except.ok pool →
        pool ≠ [] ∧ ∃ caBundleBytes, fsCA "empty.pem" = some caBundleBytes ∧
          pool = extractedCerts caBundleBytes)) :=
  ⟨by decide, certBundle_nonempty_path_errors fsCA (some sysPool) "empty.pem" (by decide)⟩

/-- C7: `buildCertificate` is all-or-nothing — if the initial load fails at
any stage it returns that error and no store is produced, and if it succeeds
the returned store's slot holds the decoded bundle. -/
theorem buildCertificate_all_or_nothing (fs : FS)
    (keystorePath keystorePass : String) :
    (∀ e, reloadDecode fs keystorePath keystorePass = Except.error e →
      buildCertificate fs keystorePath keystorePass = Except.error e) ∧
    (∀ c, buildCertificate fs keystorePath keystorePass = Except.ok c →
      ∃ b, reloadDecode fs keystorePath keystorePass = Except.ok b ∧
        c = ⟨keystorePath, keystorePass, some b⟩) := by
  constructor
  · intro e he
    unfold buildCertificate
    rw [(reload_cases fs ⟨keystorePath, keystorePass, none⟩).1 e he]
  · intro c hc
    unfold buildCertificate at hc
    cases hd : reloadDecode fs keystorePath keystorePass with
    | error e =>
      rw [(reload_cases fs ⟨keystorePath, keystorePass, none⟩).1 e hd] at hc
      exact Except.noConfusion hc
    | ok b =>
      rw [(reload_cases fs ⟨keystorePath, keystorePass, none⟩).2 b hd] at hc
      injection hc with hc
      subst hc
      exact ⟨b, rfl, rfl⟩

/-- Witness for C7 at the fixture keystore: construction succeeds and the
store's slot holds the decoded bundle. -/
theorem buildCertificate_all_or_nothing_witness :
    buildCertificate fs0 "keystore.p12" "secret" = Except.ok storeLoaded ∧
      ∃ b, reloadDecode fs0 "keystore.p12" "secret" = Except.ok b ∧
        storeLoaded = ⟨"keystore.p12", "secret", some b⟩ :=
  ⟨rfl, (buildCertificate_all_or_nothing fs0 "keystore.p12" "secret").2 storeLoaded rfl⟩

/-- C8: whenever the decode pipeline succeeds, the resulting bundle's private
key corresponds to the leaf certificate's public key — the match is checked
during parsing, so a mismatched pair never reaches publication. -/
theorem decode_success_key_matches_leaf (fs : FS)
    (keystorePath keystorePass : String) (b : TLSCertificate)
    (h : reloadDecode fs keystorePath keystorePass = Except.ok b) :
    ∃ l, b.leaf = some l ∧ b.privateKey.pub = l.pub := by
  obtain ⟨leafDER, rest, l, -, -, hleaf, hpub⟩ := reloadDecode_ok_wellFormed h
  exact ⟨l, hleaf, hpub⟩

/-- Witness for C8 at the fixture keystore, whose key has public key 7 and
whose leaf certifies public key 7. -/
theorem decode_success_key_matches_leaf_witness :
    reloadDecode fs0 "keystore.p12" "secret" = Except.ok bundle0 ∧
      ∃ l, bundle0.leaf = some l ∧ bundle0.privateKey.pub = l.pub :=
  ⟨rfl, decode_success_key_matches_leaf fs0 "keystore.p12" "secret" bundle0 rfl⟩

/-- C9: `getCertificate` returns a nil error for every input, and on a store
on which no load ever succeeded it returns a nil certificate together with
the nil error rather than any error value. -/
theorem getCertificate_nil_error (c : certificate)
    (clientHello : ClientHelloInfo) :
    (getCertificate c clientHello).2 = none ∧
      (c.cached = none → getCertificate c clientHello = (none, none)) := by
  constructor
  · rfl
  · intro h
    unfold getCertificate
    rw [h]

/-- Witness for C9 at the concrete never-loaded store. -/
theorem getCertificate_nil_error_witness :
    (getCertificate storeUnset hello0).2 = none ∧
      getCertificate storeUnset hello0 = (none, none) :=
  ⟨(getCertificate_nil_error storeUnset hello0).1,
    (getCertificate_nil_error storeUnset hello0).2 rfl⟩

/-- C10: every bundle `reload` publishes has a non-nil parsed leaf equal to
the parse of the first certificate of its chain, and a reload that fails (in
particular when that parse fails) leaves the slot unchanged. -/
theorem reload_publishes_parsed_leaf (fs : FS) (c : certificate) :
    ((reload fs c).2 = none → ∃ b leafDER rest l,
      (reload fs c).1.cached = some b ∧
        b.certificate = leafDER :: rest ∧
        ParseCertificate leafDER = some l ∧ b.leaf = some l) ∧
    (∀ e, (reload fs c).2 = some e → (reload fs c).1.cached = c.cached) := by
  cases hd : reloadDecode fs c.keystorePath c.keystorePass with
  | error e =>
    rw [(reload_cases fs c).1 e hd]
    constructor
    · intro h
      exact absurd h (by simp)
    · intro e' _
      rfl
  | ok b =>
    rw [(reload_cases fs c).2 b hd]
    constructor
    · intro _
      obtain ⟨leafDER, rest, l, hcert, hparse, hleaf, -⟩ :=
        reloadDecode_ok_wellFormed hd
      exact ⟨b, leafDER, rest, l, rfl, hcert, hparse, hleaf⟩
    · intro e' he'
      exact absurd he' (by simp)

/-- Witness for C10 at the fixture keystore: the published bundle's leaf is
the parse of its chain's first element. -/
theorem reload_publishes_parsed_leaf_witness :
    (reload fs0 storeUnset).2 = none ∧
      ∃ b leafDER rest l,
        (reload fs0 storeUnset).1.cached = some b ∧
          b.certificate = leafDER :: rest ∧
          ParseCertificate leafDER = some l ∧ b.leaf = some l :=
  ⟨rfl, (reload_publishes_parsed_leaf fs0 storeUnset).1 rfl⟩

end Ghostunnel
